import Mathlib

/-
Verification development for the local execution and request-bridging
subsystem (cli.ts): the HTTP/WebSocket bridge, the memoized external-IP
lookup, the debounced hot-reload watcher, the script runner, and the
listener port computation. Definitions are shallow embeddings of the
corresponding source functions; effectful inputs (fetch results, file
contents, executor responses) are passed explicitly as oracles.
-/

namespace Cli

/-- Script kind, derived in cli.ts line 42 from the file path. -/
inductive ScriptType where
  | module
  | script
deriving DecidableEq

/-- Configured script record fields used by cli.ts (loaded by the external
config loader). -/
structure Script where
  path : String
  localPort : Option Nat
  localHostname : Option String
  localInProcess : Bool
deriving DecidableEq

/-- Embedding of cli.ts line 21, the expression `script.localPort || 8080`.
JavaScript `||` falls through on every falsy value, so an undefined port and
a configured port of 0 both yield 8080. -/
def computePort (localPort : Option Nat) : Nat :=
  match localPort with
  | none => 8080
  | some p => if p = 0 then 8080 else p

/-- Port passed to Deno.listen at cli.ts line 161. -/
def portOf (s : Script) : Nat := computePort s.localPort

/-- Test that the path ends with the extension .ts, stated on the character
sequence of the string: the embedding of `path.endsWith(".ts")` at cli.ts
line 42. -/
def endsWithTs (path : String) : Bool :=
  List.isSuffixOf ".ts".data path.data

/-- Embedding of cli.ts line 42: `script.path.endsWith(".ts") ? "module" :
"script"`. -/
def scriptTypeOf (path : String) : ScriptType :=
  if endsWithTs path then .module else .script

/-- Result of Deno.emit at cli.ts line 31: a map from emitted file name to
its text. -/
structure EmitResult where
  files : String → Option String

/-- Embedding of computeScriptContents, cli.ts lines 28-39. The file system
read, the bundler and the text encoder are passed as oracles. For the
script kind the raw file bytes are returned; for the module kind the
bundler output at key deno:///bundle.js is encoded (an absent entry encodes
as the empty string, matching TextEncoder.encode with an undefined
argument). -/
def computeScriptContents (readFile : String → Except String (List Nat))
    (emit : String → Except String EmitResult) (encode : String → List Nat)
    (scriptPath : String) (scriptType : ScriptType) : Except String (List Nat) :=
  match scriptType with
  | .script => readFile scriptPath
  | .module => do
    let result ← emit scriptPath
    pure (encode ((result.files "deno:///bundle.js").getD ""))

/-- Outcome of one invocation of runScript, cli.ts lines 66-76. -/
inductive RunScriptOutcome where
  | ok
  | exitedProcess (code : Nat)
  | uncaughtRejection (e : String)
deriving DecidableEq

/-- Embedding of runScript, cli.ts lines 66-76. computeScriptContents is
awaited outside the try block, so its failure escapes runScript as an
uncaught rejection; a failure of workerManager.run is caught, logged and
followed by Deno.exit(1). -/
def runScript (compileResult : Except String (List Nat))
    (runResult : List Nat → Except String Unit) : RunScriptOutcome :=
  match compileResult with
  | .error e => .uncaughtRejection e
  | .ok contents =>
    match runResult contents with
    | .ok _ => .ok
    | .error _ => .exitedProcess 1

/-- Embedding of the closure produced by memoize (cli.ts lines 98-106)
applied to fetchExternalIp, run over a sequence of requests. The state is
the `cached` variable; the list gives the result each underlying fetch
would produce if invoked. Each output pair records whether the fetch was
actually invoked for that request, and the result the request observes.
A failed fetch leaves `cached` unset, because the assignment at line 103
is only reached after the awaited call returns. -/
def memoRun : Option String → List (Except String String) → List (Bool × Except String String)
  | _, [] => []
  | some v, _ :: rest => (false, Except.ok v) :: memoRun (some v) rest
  | none, f :: rest =>
    match f with
    | .ok v => (true, Except.ok v) :: memoRun (some v) rest
    | .error e => (true, Except.error e) :: memoRun none rest

/-- File system event as delivered by Deno.watchFs, with an arrival time in
milliseconds. -/
structure FsEvent where
  kind : String
  paths : List String
  time : Nat
deriving DecidableEq

/-- Condition at cli.ts line 84: the event is a modification naming the
watched script path. -/
def relevantEvent (scriptPath : String) (e : FsEvent) : Bool :=
  e.kind == "modify" && e.paths.contains scriptPath

/-- One step of the watcher loop, cli.ts lines 81-90. State: the pending
restart timer (its scheduled fire time) and the list of fire times so far.
A pending timer whose time has arrived before the next event fires; a
relevant event clears any still-pending timer and schedules a fresh one
500 ms after the event. -/
def debounceStep (scriptPath : String) (st : Option Nat × List Nat) (e : FsEvent) :
    Option Nat × List Nat :=
  let fired := match st.1 with
    | some ft => if ft ≤ e.time then (none, st.2 ++ [ft]) else (some ft, st.2)
    | none => (none, st.2)
  if relevantEvent scriptPath e then (some (e.time + 500), fired.2) else fired

/-- Fire times of runScript reloads produced by the watcher loop over a
finite event stream; after the last event any still-pending timer fires. -/
def debounceRun (scriptPath : String) (events : List FsEvent) : List Nat :=
  let final := events.foldl (debounceStep scriptPath) (none, [])
  match final.1 with
  | some ft => final.2 ++ [ft]
  | none => final.2

/-- Burst condition: every event is a relevant modification and arrives
strictly before the timer scheduled by the previous event (500 ms after
it) would fire. -/
def burstAfter (scriptPath : String) (t0 : Nat) : List FsEvent → Bool
  | [] => true
  | e :: rest =>
    relevantEvent scriptPath e && decide (e.time < t0 + 500) && burstAfter scriptPath e.time rest

/-- Arrival time of the last event of the list, or t0 when it is empty. -/
def lastTime (t0 : Nat) : List FsEvent → Nat
  | [] => t0
  | e :: rest => lastTime e.time rest

/-- Init record of a DenoflareResponse: its optional status and whether a
webSocket value is present (truthy) in it. -/
structure DenoflareInit where
  status : Option Nat
  webSocket : Bool
deriving DecidableEq

/-- Response value returned by localRequestServer.fetch: either a native
Response (tracked by its status) or a DenoflareResponse with an optional
init record and a possibly absent server-side websocket object. -/
inductive Res where
  | native (status : Nat)
  | denoflare (init : Option DenoflareInit) (serverWebSocket : Bool)
deriving DecidableEq

/-- Duck-type test DenoflareResponse.is, as used at cli.ts lines 140 and
150. -/
def isDF : Res → Bool
  | .native _ => false
  | .denoflare _ _ => true

/-- Init record of a DenoflareResponse, absent on a native response. -/
def initOf : Res → Option DenoflareInit
  | .native _ => none
  | .denoflare i _ => i

/-- Deferred-response test at cli.ts line 140: `DenoflareResponse.is(res)
&& res.init && res.init.webSocket`. -/
def isDeferred (r : Res) : Bool :=
  isDF r && (match initOf r with
    | some i => i.webSocket
    | none => false)

/-- Status lookup `res.init?.status` at cli.ts line 141. -/
def initStatus (r : Res) : Option Nat :=
  (initOf r).bind (fun i => i.status)

/-- Presence test for getDenoflareServerWebSocket at cli.ts lines 142-143. -/
def hasServerWS : Res → Bool
  | .native _ => false
  | .denoflare _ w => w

/-- Modelled from the spec: denoflare_response.ts is not under src, so
toRealResponse (called at cli.ts line 151) is taken from the spec, which
states that translation to a native response is only valid for the
non-deferred form and that a deferred response translates to an error. A
non-deferred DenoflareResponse becomes a native response carrying its init
status (200 when absent). -/
def toRealResponse (r : Res) : Except String Res :=
  if isDeferred r then .error "Cannot convert a deferred websocket response to a real response"
  else .ok (.native ((initStatus r).getD 200))

/-- Embedding of cli.ts line 127: `request.headers.get("upgrade") ||
undefined`. Headers.get returns null when the header is absent; the `||`
also maps an empty header value to undefined. -/
def jsHeaderOr (h : Option String) : Option String :=
  match h with
  | none => none
  | some s => if s = "" then none else some s

/-- Reply handed to respondWith: the native upgrade handshake response from
Deno.upgradeWebSocket (line 146), or a native response (line 153). -/
inductive Reply where
  | upgradeResponse
  | normal (r : Res)
deriving DecidableEq

/-- Observable events of one request, in program order: the native upgrade
handshake (line 131), the executor invocation (lines 139 and 149), the
wiring of the deferred server websocket to the real socket (line 144), the
reply (lines 146 and 153), and a logged respondWith failure (the catch at
lines 146 and 153). -/
inductive Ev where
  | upgradeHandshake
  | executorInvoked
  | wired
  | responded (r : Reply)
  | respondFailedLogged
deriving DecidableEq

/-- Outcome of one request: serviced, or an exception caught and logged by
the per-request catch at cli.ts lines 155-157. -/
inductive ReqOutcome where
  | served
  | errorLogged (e : String)
deriving DecidableEq

/-- Inputs determining one iteration of the request loop: the result
computeExternalIp would produce, the raw upgrade header value of the
request, the result localRequestServer.fetch would produce, and whether
respondWith succeeds. -/
structure ReqInput where
  ipResult : Except String String
  upgradeHeader : Option String
  executorResult : Except String Res
  respondWithOk : Bool

/-- Reply step `await respondWith(x).catch(e => consoleError(...))`: a
transport failure is logged and swallowed. -/
def respondStep (evs : List Ev) (r : Reply) (ok : Bool) : List Ev :=
  if ok then evs ++ [Ev.responded r] else evs ++ [Ev.respondFailedLogged]

/-- Embedding of one iteration of the request loop of handle, cli.ts lines
123-158, producing the event trace and the outcome. -/
def handleRequest (inp : ReqInput) : List Ev × ReqOutcome :=
  match inp.ipResult with
  | .error e => ([], .errorLogged e)
  | .ok _ =>
    match jsHeaderOr inp.upgradeHeader with
    | some u =>
      if u = "websocket" then
        match inp.executorResult with
        | .error e => ([Ev.upgradeHandshake, Ev.executorInvoked], .errorLogged e)
        | .ok res =>
          if isDeferred res then
            if initStatus res = some 101 then
              if hasServerWS res then
                (respondStep [Ev.upgradeHandshake, Ev.executorInvoked, Ev.wired]
                  Reply.upgradeResponse inp.respondWithOk, .served)
              else
                ([Ev.upgradeHandshake, Ev.executorInvoked],
                  .errorLogged "Bad response: expected websocket")
            else
              ([Ev.upgradeHandshake, Ev.executorInvoked],
                .errorLogged "Bad response status: expected 101")
          else
            (respondStep [Ev.upgradeHandshake, Ev.executorInvoked]
              Reply.upgradeResponse inp.respondWithOk, .served)
      else ([], .errorLogged ("Unsupported upgrade: " ++ u))
    | none =>
      match inp.executorResult with
      | .error e => ([Ev.executorInvoked], .errorLogged e)
      | .ok res =>
        if isDF res then
          match toRealResponse res with
          | .error e => ([Ev.executorInvoked], .errorLogged e)
          | .ok r =>
            (respondStep [Ev.executorInvoked] (Reply.normal r) inp.respondWithOk, .served)
        else
          (respondStep [Ev.executorInvoked] (Reply.normal res) inp.respondWithOk, .served)

/-- Embedding of handle, cli.ts lines 121-159: the sequential request loop
of one connection. Every exception of the loop body is caught inside
handleRequest, so the loop reaches every request of the connection. -/
def handle (reqs : List ReqInput) : List (List Ev × ReqOutcome) :=
  reqs.map handleRequest

/-- Embedding of the accept loop, cli.ts lines 164-166: each accepted
connection is processed by handle, whose failure is caught and logged. -/
def serverLoop (conns : List (List ReqInput)) : List (List (List Ev × ReqOutcome)) :=
  conns.map handle

/-- Concrete request with no Upgrade header whose executor result is a
deferred websocket response; used by the C2 witness. -/
def reqDeferredNoUpgrade : ReqInput :=
  { ipResult := Except.ok "1.2.3.4", upgradeHeader := none,
    executorResult := Except.ok (Res.denoflare (some ⟨some 101, true⟩) true),
    respondWithOk := true }

/-- Concrete request carrying an Upgrade header with the empty value; used
by the C5 counterexample. -/
def reqEmptyUpgrade : ReqInput :=
  { ipResult := Except.ok "1.2.3.4", upgradeHeader := some "",
    executorResult := Except.ok (Res.native 200), respondWithOk := true }

/-- Concrete request carrying the Upgrade header value gzip; used by the
C5 witness. -/
def reqGzipUpgrade : ReqInput :=
  { ipResult := Except.ok "1.2.3.4", upgradeHeader := some "gzip",
    executorResult := Except.ok (Res.native 200), respondWithOk := true }

/-- Concrete websocket upgrade request whose executor result is a deferred
response with status 200; used by the C6 witness. -/
def reqBadStatusUpgrade : ReqInput :=
  { ipResult := Except.ok "1.2.3.4", upgradeHeader := some "websocket",
    executorResult := Except.ok (Res.denoflare (some ⟨some 200, true⟩) true),
    respondWithOk := true }

/-- Setup produced by createLocalRequestServer, cli.ts lines 41-93: which
executor strategy was chosen and whether the file watcher was installed.
The watcher (Deno.watchFs, lines 80-90) is created only in the
non-in-process branch; the in-process branch (lines 43-60) returns
WorkerExecution.start directly, with no watcher. -/
structure LocalServerSetup where
  inProcess : Bool
  watcherInstalled : Bool
deriving DecidableEq

/-- Embedding of the branch structure of createLocalRequestServer, cli.ts
lines 41-93. -/
def createLocalRequestServer (runInProcess : Bool) : LocalServerSetup :=
  if runInProcess then { inProcess := true, watcherInstalled := false }
  else { inProcess := false, watcherInstalled := true }

/-- Reload fire times for a given setup: the debounced watcher runs only
when the watcher was installed. -/
def reloadsFor (setup : LocalServerSetup) (scriptPath : String) (events : List FsEvent) :
    List Nat :=
  if setup.watcherInstalled then debounceRun scriptPath events else []

/-! Helper lemmas shared by the claim theorems. -/

/-- Once the cache holds a value, no later call invokes the fetch and every
later call returns the cached value. -/
theorem memoRun_cached (v : String) :
    ∀ (l : List (Except String String)),
    memoRun (some v) l = l.map (fun _ => (false, Except.ok v))
  | [] => rfl
  | f :: rest => by
    simp only [memoRun, List.map_cons]
    exact congrArg _ (memoRun_cached v rest)

/-- During a burst, the fold of the watcher loop only replaces the pending
timer: starting with a timer scheduled 500 ms after time t0, it ends with a
timer scheduled 500 ms after the last event and fires nothing. -/
theorem debounce_fold_burst (p : String) :
    ∀ (evs : List FsEvent) (t0 : Nat) (fires : List Nat),
    burstAfter p t0 evs = true →
    List.foldl (debounceStep p) (some (t0 + 500), fires) evs =
      (some (lastTime t0 evs + 500), fires)
  | [], _, _, _ => rfl
  | e :: rest, t0, fires, h => by
    simp only [burstAfter, Bool.and_eq_true, decide_eq_true_eq] at h
    obtain ⟨⟨hrel, hlt⟩, hrest⟩ := h
    have hstep : debounceStep p (some (t0 + 500), fires) e = (some (e.time + 500), fires) := by
      simp [debounceStep, hrel, Nat.not_le.mpr hlt]
    rw [List.foldl_cons, hstep, lastTime]
    exact debounce_fold_burst p rest e.time fires hrest

/-! Claim theorems. -/

/-- C9 counterexample: a script configured with local port 0 is bound to
8080, not to its configured port, because `localPort || 8080` treats the
falsy value 0 as absent. -/
theorem port_zero_cex :
    portOf { path := "worker.js", localPort := some 0, localHostname := none,
             localInProcess := false } = 8080 ∧
    portOf { path := "worker.js", localPort := some 0, localHostname := none,
             localInProcess := false } ≠ 0 := by
  exact ⟨rfl, by decide⟩

/-- C9 (amended): the listener binds the configured local port when it is
non-zero, and binds the default 8080 when no local port is configured. -/
theorem port_nonzero_or_default (s : Script) :
    (∀ p, s.localPort = some p → p ≠ 0 → portOf s = p) ∧
    (s.localPort = none → portOf s = 8080) := by
  constructor
  · intro p hp hnz
    simp [portOf, computePort, hp, hnz]
  · intro hp
    simp [portOf, computePort, hp]

/-- C9 witness: a script configured with port 3000 is bound to 3000 and an
unconfigured script is bound to 8080. -/
theorem port_nonzero_or_default_witness :
    portOf { path := "worker.js", localPort := some 3000, localHostname := none,
             localInProcess := false } = 3000 ∧
    portOf { path := "worker.js", localPort := none, localHostname := none,
             localInProcess := false } = 8080 := by
  constructor
  · exact (port_nonzero_or_default
      { path := "worker.js", localPort := some 3000, localHostname := none,
        localInProcess := false }).1 3000 rfl (by decide)
  · exact (port_nonzero_or_default
      { path := "worker.js", localPort := none, localHostname := none,
        localInProcess := false }).2 rfl

/-- C10: the script kind is derived from the file path: a path ending in
.ts is compiled with the bundler and run as a module worker, and every
other path is read as raw file bytes and run as a classic script. -/
theorem script_type_from_path (path : String)
    (readFile : String → Except String (List Nat))
    (emit : String → Except String EmitResult) (encode : String → List Nat) :
    (endsWithTs path = true →
      scriptTypeOf path = ScriptType.module ∧
      computeScriptContents readFile emit encode path (scriptTypeOf path) =
        (emit path).map (fun r => encode ((r.files "deno:///bundle.js").getD ""))) ∧
    (endsWithTs path = false →
      scriptTypeOf path = ScriptType.script ∧
      computeScriptContents readFile emit encode path (scriptTypeOf path) = readFile path) := by
  constructor
  · intro h
    have ht : scriptTypeOf path = ScriptType.module := by simp [scriptTypeOf, h]
    refine ⟨ht, ?_⟩
    rw [ht]
    cases hemit : emit path with
    | error e => simp [computeScriptContents, hemit, Except.map]
    | ok r => simp [computeScriptContents, hemit, Except.map]
  · intro h
    have ht : scriptTypeOf path = ScriptType.script := by simp [scriptTypeOf, h]
    exact ⟨ht, by rw [ht]; rfl⟩

/-- C10 witness: worker.ts is treated as a module and bundled, worker.js is
treated as a classic script and read raw. -/
theorem script_type_from_path_witness :
    scriptTypeOf "worker.ts" = ScriptType.module ∧
    computeScriptContents (fun _ => Except.ok [7])
      (fun _ => Except.ok ⟨fun s => if s = "deno:///bundle.js" then some "ab" else none⟩)
      (fun s => [s.length]) "worker.ts" (scriptTypeOf "worker.ts") = Except.ok [2] ∧
    scriptTypeOf "worker.js" = ScriptType.script ∧
    computeScriptContents (fun _ => Except.ok [7])
      (fun _ => Except.ok ⟨fun s => if s = "deno:///bundle.js" then some "ab" else none⟩)
      (fun s => [s.length]) "worker.js" (scriptTypeOf "worker.js") = Except.ok [7] := by
  have h1 := (script_type_from_path "worker.ts" (fun _ => Except.ok [7])
    (fun _ => Except.ok ⟨fun s => if s = "deno:///bundle.js" then some "ab" else none⟩)
    (fun s => [s.length])).1 (by decide)
  have h2 := (script_type_from_path "worker.js" (fun _ => Except.ok [7])
    (fun _ => Except.ok ⟨fun s => if s = "deno:///bundle.js" then some "ab" else none⟩)
    (fun s => [s.length])).2 (by decide)
  exact ⟨h1.1, by rw [h1.2]; rfl, h2.1, by rw [h2.2]⟩

/-- C1: on a run failure the process exits with code 1 (so a failing
reload kills the previous running instance instead of leaving it serving),
and a compile failure escapes runScript as an uncaught rejection without
being logged. This refutes the claim that reload failures are non-fatal. -/
theorem runScript_failure_fatal :
    runScript (Except.ok [1]) (fun _ => Except.error "run failed") =
      RunScriptOutcome.exitedProcess 1 ∧
    runScript (Except.error "emit failed") (fun _ => Except.ok ()) =
      RunScriptOutcome.uncaughtRejection "emit failed" :=
  ⟨rfl, rfl⟩

/-- C3 counterexample: when the first fetch fails, the second request
invokes the underlying fetch again, so the fetch happens twice in one
process lifetime, refuting at-most-once; the first output pair is the
failed first call, the second shows a second real invocation. -/
theorem memoize_refetch_cex :
    ((memoRun none [Except.error "boom", Except.ok "1.2.3.4"]).filter
      (fun p => p.1)).length = 2 ∧
    (memoRun none [Except.error "boom", Except.ok "1.2.3.4"]).get? 1 =
      some (true, Except.ok "1.2.3.4") :=
  ⟨rfl, rfl⟩

/-- C3 (amended): the fetch is invoked on every request until it first
succeeds, so it can run more than once when early fetches fail; each such
failing request fails with its own fetch error; from the first successful
fetch on, every later request reuses the cached value without invoking the
fetch, so a request can fail due to the IP lookup only while no fetch has
succeeded. -/
theorem memoize_fetch_until_first_success (v : String) :
    ∀ (pre rest : List (Except String String)),
    (∀ f ∈ pre, ∃ e, f = Except.error e) →
    memoRun none (pre ++ Except.ok v :: rest) =
      pre.map (fun f => (true, f)) ++
        (true, Except.ok v) :: rest.map (fun _ => (false, Except.ok v)) := by
  intro pre
  induction pre with
  | nil =>
    intro rest _
    simp only [List.nil_append, List.map_nil, memoRun]
    exact congrArg _ (memoRun_cached v rest)
  | cons f pre ih =>
    intro rest h
    obtain ⟨e, rfl⟩ := h f (List.mem_cons_self f pre)
    have := ih rest (fun g hg => h g (List.mem_cons_of_mem _ hg))
    simp only [List.cons_append, List.map_cons, memoRun]
    exact congrArg _ this

/-- C3 witness: with fetch results failure, success, failure, the first
request invokes and fails, the second invokes and caches the value, and
the third reuses the cache without invoking the fetch. -/
theorem memoize_fetch_until_first_success_witness :
    memoRun none [Except.error "e1", Except.ok "1.2.3.4", Except.error "e2"] =
      [(true, Except.error "e1"), (true, Except.ok "1.2.3.4"),
        (false, Except.ok "1.2.3.4")] := by
  have h := memoize_fetch_until_first_success "1.2.3.4" [Except.error "e1"]
    [Except.error "e2"] (by
      intro f hf
      simp only [List.mem_singleton] at hf
      exact ⟨"e1", hf⟩)
  simpa using h

/-- C4: for a burst of modification events on the watched path in which
every later event arrives before the timer scheduled by the previous one
fires, exactly one reload fires, 500 ms after the last event (hence after
every event of the burst, so it sees the contents present after the last
event). -/
theorem debounce_single_reload (p : String) (e0 : FsEvent) (rest : List FsEvent)
    (h0 : relevantEvent p e0 = true) (hb : burstAfter p e0.time rest = true) :
    debounceRun p (e0 :: rest) = [lastTime e0.time rest + 500] ∧
    lastTime e0.time rest < lastTime e0.time rest + 500 := by
  refine ⟨?_, by omega⟩
  have hstep : debounceStep p (none, []) e0 = (some (e0.time + 500), []) := by
    simp [debounceStep, h0]
  simp only [debounceRun, List.foldl_cons, hstep,
    debounce_fold_burst p rest e0.time [] hb, List.nil_append]

/-- C4 witness: three modifications at 0, 100 and 200 ms produce exactly
one reload, at 700 ms, after the last event. -/
theorem debounce_single_reload_witness :
    debounceRun "worker.js" [⟨"modify", ["worker.js"], 0⟩, ⟨"modify", ["worker.js"], 100⟩,
      ⟨"modify", ["worker.js"], 200⟩] = [700] ∧ (200 : Nat) < 700 := by
  have h := debounce_single_reload "worker.js" ⟨"modify", ["worker.js"], 0⟩
    [⟨"modify", ["worker.js"], 100⟩, ⟨"modify", ["worker.js"], 200⟩] (by decide) (by decide)
  exact ⟨by rw [h.1]; rfl, by omega⟩

/-- C8 counterexample: in in-process mode a modification of the script
file triggers no reload at all (no watcher is installed), while the same
event in the non-in-process mode triggers one. -/
theorem inprocess_no_reload_cex :
    reloadsFor (createLocalRequestServer true) "worker.ts" [⟨"modify", ["worker.ts"], 0⟩] = [] ∧
    reloadsFor (createLocalRequestServer false) "worker.ts" [⟨"modify", ["worker.ts"], 0⟩] =
      [500] := by
  exact ⟨by decide, by decide⟩

/-- C8 (amended): in in-process execution mode no file watcher is
installed and no sequence of file events ever triggers a reload; hot
reload is active only in the Deno-worker mode. -/
theorem inprocess_mode_never_reloads (p : String) (events : List FsEvent) :
    (createLocalRequestServer true).watcherInstalled = false ∧
    reloadsFor (createLocalRequestServer true) p events = [] ∧
    (createLocalRequestServer false).watcherInstalled = true :=
  ⟨rfl, rfl, rfl⟩

/-- C7: the connection loop is a pure map of handleRequest over the
requests of the connection and the accept loop is a pure map of handle
over the connections: every request of every connection is serviced, in
order, with an outcome that is independent of the outcomes (including
logged errors) of all other requests and connections. -/
theorem request_errors_do_not_stop_loops (conns : List (List ReqInput))
    (reqs : List ReqInput) (i j : Nat) :
    (serverLoop conns).length = conns.length ∧
    (handle reqs).length = reqs.length ∧
    (serverLoop conns)[i]? = (conns[i]?).map handle ∧
    (handle reqs)[j]? = (reqs[j]?).map handleRequest := by
  refine ⟨?_, ?_, ?_, ?_⟩ <;> simp [serverLoop, handle, List.getElem?_map, List.length_map]

/-- C2: outside an upgrade, a deferred executor response is translated to
an error (caught and logged, no reply is sent), and a reply with a
translated native response happens only for the non-deferred form. The
translation toRealResponse is modelled from the spec, since
denoflare_response.ts is not under src. -/
theorem deferred_response_errors_outside_upgrade (inp : ReqInput) (ip : String) (res : Res)
    (hip : inp.ipResult = Except.ok ip)
    (hup : jsHeaderOr inp.upgradeHeader = none)
    (hex : inp.executorResult = Except.ok res) :
    (isDeferred res = true →
      (∃ e, (handleRequest inp).2 = ReqOutcome.errorLogged e) ∧
      ∀ r, Ev.responded r ∉ (handleRequest inp).1) ∧
    (∀ r, Ev.responded (Reply.normal r) ∈ (handleRequest inp).1 → isDeferred res = false) := by
  have hbase : handleRequest inp =
      (if isDF res then
        match toRealResponse res with
        | .error e => ([Ev.executorInvoked], ReqOutcome.errorLogged e)
        | .ok r =>
          (respondStep [Ev.executorInvoked] (Reply.normal r) inp.respondWithOk, ReqOutcome.served)
      else
        (respondStep [Ev.executorInvoked] (Reply.normal res) inp.respondWithOk,
          ReqOutcome.served)) := by
    simp only [handleRequest, hip, hup, hex]
  have hkey : isDeferred res = true →
      handleRequest inp = ([Ev.executorInvoked],
        ReqOutcome.errorLogged "Cannot convert a deferred websocket response to a real response") := by
    intro hd
    have hdf : isDF res = true := by
      cases res with
      | native s => simp [isDeferred, isDF] at hd
      | denoflare i w => rfl
    have htr : toRealResponse res =
        Except.error "Cannot convert a deferred websocket response to a real response" := by
      simp [toRealResponse, hd]
    rw [hbase, if_pos hdf, htr]
  constructor
  · intro hd
    rw [hkey hd]
    exact ⟨⟨_, rfl⟩, by intro r; simp⟩
  · intro r hr
    by_contra hnd
    rw [Bool.not_eq_false] at hnd
    rw [hkey hnd] at hr
    simp at hr

/-- C2 witness: a deferred response (status 101, webSocket set) returned
for a request with no Upgrade header is logged as an error and no reply
event occurs. -/
theorem deferred_response_errors_outside_upgrade_witness :
    (∃ e, (handleRequest reqDeferredNoUpgrade).2 = ReqOutcome.errorLogged e) ∧
    ∀ r, Ev.responded r ∉ (handleRequest reqDeferredNoUpgrade).1 :=
  (deferred_response_errors_outside_upgrade reqDeferredNoUpgrade
    "1.2.3.4" (Res.denoflare (some ⟨some 101, true⟩) true) rfl rfl rfl).1 (by decide)

/-- C5 counterexample: a request carrying an Upgrade header with the empty
value (a value different from websocket) is not rejected: the `|| undefined`
at cli.ts line 127 maps the empty header value to undefined, so the request
is handled as a normal request and the executor is invoked. -/
theorem empty_upgrade_not_rejected_cex :
    reqEmptyUpgrade.upgradeHeader = some "" ∧
    ("" : String) ≠ "websocket" ∧
    handleRequest reqEmptyUpgrade =
      ([Ev.executorInvoked, Ev.responded (Reply.normal (Res.native 200))],
        ReqOutcome.served) :=
  ⟨rfl, by decide, by decide⟩

/-- C5 (amended): for every request carrying an Upgrade header whose value
is non-empty and different from websocket, the bridge fails the request
with a logged error without invoking the executor and without performing
the native upgrade handshake (an empty Upgrade header value is instead
treated as no upgrade). -/
theorem nonempty_bad_upgrade_rejected (inp : ReqInput) (u : String)
    (hu : inp.upgradeHeader = some u) (hne : u ≠ "") (hws : u ≠ "websocket") :
    (∃ e, (handleRequest inp).2 = ReqOutcome.errorLogged e) ∧
    Ev.executorInvoked ∉ (handleRequest inp).1 ∧
    Ev.upgradeHandshake ∉ (handleRequest inp).1 := by
  have hj : jsHeaderOr inp.upgradeHeader = some u := by simp [jsHeaderOr, hu, hne]
  cases hip : inp.ipResult with
  | error e =>
    have hr : handleRequest inp = ([], ReqOutcome.errorLogged e) := by
      simp only [handleRequest, hip]
    rw [hr]
    exact ⟨⟨e, rfl⟩, by simp, by simp⟩
  | ok ip =>
    have hr : handleRequest inp = ([], ReqOutcome.errorLogged ("Unsupported upgrade: " ++ u)) := by
      simp only [handleRequest, hip, hj, if_neg hws]
    rw [hr]
    exact ⟨⟨_, rfl⟩, by simp, by simp⟩

/-- C5 witness: a request with header value gzip is rejected with a logged
error, with no executor invocation and no native upgrade handshake. -/
theorem nonempty_bad_upgrade_rejected_witness :
    (∃ e, (handleRequest reqGzipUpgrade).2 = ReqOutcome.errorLogged e) ∧
    Ev.executorInvoked ∉ (handleRequest reqGzipUpgrade).1 ∧
    Ev.upgradeHandshake ∉ (handleRequest reqGzipUpgrade).1 :=
  nonempty_bad_upgrade_rejected reqGzipUpgrade "gzip" rfl (by decide) (by decide)

/-- C6: on a websocket upgrade, a deferred executor response whose status
differs from 101 makes the request fail with a logged error; the deferred
server websocket is never wired to the client and no reply event occurs. -/
theorem bad_deferred_status_never_wired (inp : ReqInput) (ip : String) (res : Res)
    (hip : inp.ipResult = Except.ok ip)
    (hu : jsHeaderOr inp.upgradeHeader = some "websocket")
    (hex : inp.executorResult = Except.ok res)
    (hd : isDeferred res = true)
    (hs : initStatus res ≠ some 101) :
    (handleRequest inp).2 = ReqOutcome.errorLogged "Bad response status: expected 101" ∧
    Ev.wired ∉ (handleRequest inp).1 ∧
    ∀ r, Ev.responded r ∉ (handleRequest inp).1 := by
  have hr : handleRequest inp = ([Ev.upgradeHandshake, Ev.executorInvoked],
      ReqOutcome.errorLogged "Bad response status: expected 101") := by
    simp only [handleRequest, hip, hu, hex, hd, if_true, if_neg hs]
  rw [hr]
  exact ⟨rfl, by simp, by intro r; simp⟩

/-- C6 witness: a deferred response with status 200 on a websocket upgrade
is logged as an error, never wired and never replied. -/
theorem bad_deferred_status_never_wired_witness :
    (handleRequest reqBadStatusUpgrade).2 =
      ReqOutcome.errorLogged "Bad response status: expected 101" ∧
    Ev.wired ∉ (handleRequest reqBadStatusUpgrade).1 ∧
    ∀ r, Ev.responded r ∉ (handleRequest reqBadStatusUpgrade).1 :=
  bad_deferred_status_never_wired reqBadStatusUpgrade
    "1.2.3.4" (Res.denoflare (some ⟨some 200, true⟩) true) rfl rfl rfl (by decide) (by decide)

end Cli
